import Mathlib

/-!
# onboarding-project: the greeting handler and the server lifecycle of `main.go`

A shallow embedding of `src/main.go`.

* Go strings are byte sequences, so `GoString` is a list of bytes and the slice
  expression `s[1:]` drops one *byte*.
* `HelloServer` is run against the `httptest.ResponseRecorder` that the tests of
  `main_test.go` hand to it; a Go run-time panic is an explicit field of the
  outcome, next to the recorder and the log as they stand when the panic occurs.
* `main` is a two-thread program (the main goroutine and the goroutine running
  `ListenAndServe`); it is embedded as a step function over the statements of
  both threads, driven by a schedule that also carries the events of the
  environment (signals, the return of `ListenAndServe`, the return of
  `Shutdown`).
-/

namespace Onboarding

/-! ## Go strings -/

/-- A Go string: an immutable sequence of bytes. -/
abbrev GoString := List UInt8

/-- The bytes of a Go string literal (Go source text is UTF-8). -/
def str (s : String) : GoString := s.toUTF8.data.toList

/-- Run-time panics of the Go code modelled here. -/
inductive RuntimePanic where
  /-- Panic "slice bounds out of range [lo:len]". -/
  | sliceBoundsOutOfRange (lo len : Nat)
  deriving DecidableEq, Repr

/-- The simple slice expression `s[lo:]` on a string: it panics unless
`lo ≤ len(s)`, and otherwise yields the bytes from index `lo` on. -/
def sliceFrom (s : GoString) (lo : Nat) : Except RuntimePanic GoString :=
  if lo ≤ s.length then .ok (s.drop lo) else .error (.sliceBoundsOutOfRange lo s.length)

/-! ## The fragment of `fmt` used by `main.go` -/

/-- The formatting of `fmt.Sprintf` restricted to string operands and the verb
`%s`, the only directive in the two format strings of `main.go`
(`"Hello, %s!"` and `"0.0.0.0:%s"`): ordinary bytes are copied, `%s` is
replaced by the next operand byte for byte, and `%s` with no operand left
prints `%!s(MISSING)`. Any other byte after `%` is outside the modelled
fragment and is copied like an ordinary byte. -/
def Sprintf : GoString → List GoString → GoString
  | [], _ => []
  | 37 :: 115 :: rest, a :: args => a ++ Sprintf rest args
  | 37 :: 115 :: rest, [] => str "%!s(MISSING)" ++ Sprintf rest []
  | c :: rest, args => c :: Sprintf rest args

/-- The formatting of `fmt.Sprint` on a single string operand: the operand itself. -/
def Sprint (a : GoString) : GoString := a

/-! ## `log/slog` -/

/-- Severity of a log record. -/
inductive Level where
  | info
  | error
  deriving DecidableEq, Repr

/-- A structured log record: level, message and key/value attributes. -/
structure Record where
  level : Level
  msg : GoString
  attrs : List (GoString × GoString)
  deriving DecidableEq, Repr

/-- The output of the process-wide default logger, oldest record first. -/
abbrev Log := List Record

/-- The call `slog.Info(msg, attrs...)`: appends one record at level INFO. -/
def slog.Info (log : Log) (msg : GoString) (attrs : List (GoString × GoString)) : Log :=
  log ++ [{ level := .info, msg := msg, attrs := attrs }]

/-- The call `slog.Error(msg, attrs...)`: appends one record at level ERROR. -/
def slog.Error (log : Log) (msg : GoString) (attrs : List (GoString × GoString)) : Log :=
  log ++ [{ level := .error, msg := msg, attrs := attrs }]

/-! ## `net/http`: headers, requests, the response recorder -/

/-- A value of type `http.Header`: header keys with their values. -/
abbrev Header := List (GoString × List GoString)

/-- The method `Header.Set(key, value)`: the values of `key` are replaced by the
single value `value`. (The key `Content-Type` used by the handler is already in
canonical MIME form, so canonicalisation leaves it unchanged.) -/
def Header.Set (h : Header) (key value : GoString) : Header :=
  (key, [value]) :: h.filter (fun kv => kv.1 ≠ key)

/-- The method `Header.Get(key)`: the first value of `key`, or `""`. -/
def Header.Get (h : Header) (key : GoString) : GoString :=
  match h.find? (fun kv => kv.1 = key) with
  | some (_, v :: _) => v
  | _ => []

/-- The fields of `url.URL` that a request target populates. -/
structure URL where
  Path : GoString
  RawQuery : GoString
  deriving DecidableEq, Repr

/-- An inbound `http.Request` as the HTTP stack hands it to a handler. -/
structure Request where
  Method : GoString
  URL : URL
  Header : Header
  Body : GoString
  RemoteAddr : GoString
  deriving DecidableEq, Repr

/-- The response writer `httptest.ResponseRecorder`. -/
structure ResponseRecorder where
  /-- Status code, `200` until `WriteHeader` sets it. -/
  Code : Nat
  /-- The header map returned by `Header()`. -/
  HeaderMap : Header
  /-- The bytes written so far. -/
  Body : GoString
  /-- Whether the status line and headers have been committed. -/
  wroteHeader : Bool
  /-- The headers as committed by the first write. -/
  snapHeader : Option Header
  deriving DecidableEq, Repr

/-- The constructor `httptest.NewRecorder()`. -/
def NewRecorder : ResponseRecorder :=
  { Code := 200, HeaderMap := [], Body := [], wroteHeader := false, snapHeader := none }

/-- The method `WriteHeader(code)`: commits status and headers, once. -/
def ResponseRecorder.WriteHeader (w : ResponseRecorder) (code : Nat) : ResponseRecorder :=
  if w.wroteHeader then w
  else { w with Code := code, wroteHeader := true, snapHeader := some w.HeaderMap }

/-- The method `Write(buf)`: an implicit `WriteHeader(200)` if nothing was
committed yet, then the bytes are appended to the body. It never fails. (The
recorder guesses a content type from the first bytes only when the header map
has no `Content-Type` at the first write; the handler sets that header before
it writes, so the guess is never made here and is not modelled.) -/
def ResponseRecorder.Write (w : ResponseRecorder) (buf : GoString) : ResponseRecorder :=
  let w1 := w.WriteHeader 200
  { w1 with Body := w1.Body ++ buf }

/-- The call `w.Header().Set(key, value)`. -/
def ResponseRecorder.HeaderSet (w : ResponseRecorder) (key value : GoString) : ResponseRecorder :=
  { w with HeaderMap := Header.Set w.HeaderMap key value }

/-- The call `fmt.Fprintf(w, format, args...)`: formats, then one `Write`. -/
def Fprintf (w : ResponseRecorder) (format : GoString) (args : List GoString) : ResponseRecorder :=
  w.Write (Sprintf format args)

/-- The call `fmt.Fprint(w, a)`: formats, then one `Write`. -/
def Fprint (w : ResponseRecorder) (a : GoString) : ResponseRecorder :=
  w.Write (Sprint a)

/-! ## `HelloServer` -/

/-- What a call of the handler leaves behind: the response recorder, the log,
and the panic that ended the call, if one did. -/
structure Outcome where
  w : ResponseRecorder
  log : Log
  panic : Option RuntimePanic
  deriving DecidableEq, Repr

/-- The handler `HelloServer(w, r)` of `main.go`. -/
def HelloServer (w : ResponseRecorder) (r : Request) (log : Log) : Outcome :=
  -- Add request logging
  let log := slog.Info log (str "Handling request")
    [(str "method", r.Method), (str "path", r.URL.Path), (str "remote_addr", r.RemoteAddr)]
  -- Set content type
  let w := w.HeaderSet (str "Content-Type") (str "text/plain; charset=utf-8")
  match sliceFrom r.URL.Path 1 with
  | .error p => { w := w, log := log, panic := some p }
  | .ok path =>
    if path ≠ str "" then
      { w := Fprintf w (str "Hello, %s!") [path], log := log, panic := none }
    else
      { w := Fprint w (str "Hello World!"), log := log, panic := none }

/-- A `GET` request for `path` with nothing else set, as `httptest.NewRequest`
builds it for a target without a query. -/
def getRequest (path : GoString) : Request :=
  { Method := str "GET", URL := { Path := path, RawQuery := [] }, Header := [], Body := [],
    RemoteAddr := str "192.0.2.1:1234" }

/-- The content type header as the handler leaves it in the header map. -/
def withContentType (w : ResponseRecorder) : ResponseRecorder :=
  w.HeaderSet (str "Content-Type") (str "text/plain; charset=utf-8")

/-- The log after the request record of the handler. -/
def withRequestRecord (log : Log) (r : Request) : Log :=
  slog.Info log (str "Handling request")
    [(str "method", r.Method), (str "path", r.URL.Path), (str "remote_addr", r.RemoteAddr)]

/-- A request with every field chosen freely. -/
def mkRequest (method path query body remote : GoString) (hdr : Header) : Request :=
  { Method := method, URL := { Path := path, RawQuery := query }, Header := hdr, Body := body,
    RemoteAddr := remote }

/-! ## `main`: configuration -/

/-- A non-nil Go `error` value, as far as `main` tells errors apart. -/
inductive GoError where
  /-- The sentinel `http.ErrServerClosed`. -/
  | ErrServerClosed
  /-- The sentinel `context.DeadlineExceeded`. -/
  | DeadlineExceeded
  /-- Any other error, for instance a failure to bind or to accept. -/
  | other (msg : GoString)
  deriving DecidableEq, Repr

/-- The method `Error()` of an error: its message. -/
def GoError.Error : GoError → GoString
  | .ErrServerClosed => str "http: Server closed"
  | .DeadlineExceeded => str "context deadline exceeded"
  | .other msg => msg

/-- The process environment: variables with their values. -/
abbrev Environ := List (GoString × GoString)

/-- The call `os.Getenv(key)`: the value of the variable, `""` if it is unset. -/
def os.Getenv (env : Environ) (key : GoString) : GoString :=
  match env.find? (fun kv => kv.1 = key) with
  | some (_, v) => v
  | none => str ""

/-- The constant `time.Second`, in nanoseconds. -/
def time.Second : Nat := 1000000000

/-- The fields of `http.Server` that `main` sets. -/
structure Server where
  Addr : GoString
  Handler : ResponseRecorder → Request → Log → Outcome
  ReadTimeout : Nat
  WriteTimeout : Nat
  IdleTimeout : Nat

/-- Lines 22-25 of `main`: the port, from `PORT` or the default. -/
def mainPort (env : Environ) : GoString :=
  let port := os.Getenv env (str "PORT")
  if port = str "" then str "8080" else port

/-- Lines 28-34 of `main`: the server value. -/
def mainServer (env : Environ) : Server :=
  { Addr := Sprintf (str "0.0.0.0:%s") [mainPort env],
    Handler := HelloServer,
    ReadTimeout := 15 * time.Second,
    WriteTimeout := 15 * time.Second,
    IdleTimeout := 60 * time.Second }

/-! ## `main`: the two goroutines -/

/-- The signals of the model: the two that `main` subscribes to, and one
representative of the others, whose default action ends the process. -/
inductive Signal where
  | SIGINT
  | SIGTERM
  | SIGHUP
  deriving DecidableEq, Repr

/-- How the process stands. -/
inductive Status where
  | running
  /-- Ended by `os.Exit(code)` or by `main` returning (`code = 0`). -/
  | exited (code : Nat)
  /-- Ended abruptly by a signal nobody subscribed to. -/
  | killed (sig : Signal)
  deriving DecidableEq, Repr

/-- Program counter of the main goroutine: the statement it executes next. -/
inductive MainPc where
  /-- Lines 16-34: logger, port, server value. -/
  | start
  /-- Line 37: the `go` statement. -/
  | spawn
  /-- Lines 46-47: `make(chan os.Signal, 1)` and `signal.Notify`. -/
  | notify
  /-- Line 48: the receive `<-quit`. -/
  | waitQuit
  /-- Line 50: `slog.Info("Shutting down server...")`. -/
  | logShutting
  /-- Lines 53-57: `context.WithTimeout` and the call `server.Shutdown(ctx)`. -/
  | callShutdown
  /-- Inside `server.Shutdown`, which has not returned yet. -/
  | inShutdown
  /-- Line 58: `slog.Error("Server forced to shutdown", "error", err)`. -/
  | logForced (err : GoError)
  /-- Line 59: `os.Exit(1)`. -/
  | exit1
  /-- Line 62: `slog.Info("Server exited")`. -/
  | logExited
  /-- Line 63: the return of `main`, which ends the process with status 0. -/
  | ret
  deriving DecidableEq, Repr

/-- Program counter of the goroutine started at line 37. -/
inductive GoPc where
  /-- The `go` statement has not run yet. -/
  | notStarted
  /-- Line 38: `slog.Info("Starting server", "port", port)`. -/
  | logStarting
  /-- Line 39: the call `server.ListenAndServe()`. -/
  | callListen
  /-- Inside `ListenAndServe`, which has not returned yet. -/
  | inListen
  /-- Line 40: `slog.Error("Server failed to start", "error", err)`. -/
  | logFailed (err : GoError)
  /-- Line 41: `os.Exit(1)`. -/
  | exit1
  /-- The function literal has returned. -/
  | done
  deriving DecidableEq, Repr

/-- The state of the process running `main`. The last five fields are history
variables: they record what has happened and influence nothing. -/
structure State where
  env : Environ
  status : Status
  mainPc : MainPc
  goPc : GoPc
  /-- The variable `port`, once assigned. -/
  port : Option GoString
  /-- The variable `server`, once assigned. -/
  server : Option Server
  /-- Whether `signal.Notify(quit, SIGINT, SIGTERM)` has run. -/
  notified : Bool
  /-- The channel `quit`, of capacity one. -/
  quit : Option Signal
  /-- The timeout of the shutdown context, once created. -/
  shutdownTimeout : Option Nat
  log : Log
  /-- History: the signals that `main` has received from `quit`. -/
  received : List Signal
  /-- History: how often `server.ListenAndServe` has been called. -/
  listenCalls : Nat
  /-- History: how often `server.Shutdown` has been called. -/
  shutdownCalls : Nat
  /-- History: what `ListenAndServe` returned (`none` inside: the nil error). -/
  listenResult : Option (Option GoError)
  /-- History: what `Shutdown` returned (`none` inside: the nil error). -/
  shutdownResult : Option (Option GoError)

/-- The process at its start, in the environment `env`. -/
def State.init (env : Environ) : State :=
  { env := env, status := .running, mainPc := .start, goPc := .notStarted, port := none,
    server := none, notified := false, quit := none, shutdownTimeout := none, log := [],
    received := [], listenCalls := 0, shutdownCalls := 0, listenResult := none,
    shutdownResult := none }

/-- What can happen next: a thread executes its next statement, or the
environment acts (a signal is delivered, a blocking library call returns). -/
inductive Event where
  /-- The main goroutine executes its next statement. -/
  | main
  /-- The goroutine of line 37 executes its next statement. -/
  | go
  /-- The operating system delivers a signal to the process. -/
  | signal (sig : Signal)
  /-- The call `server.ListenAndServe()` returns `err` (`none`: nil). -/
  | listenReturns (err : Option GoError)
  /-- The call `server.Shutdown(ctx)` returns `err` (`none`: nil). -/
  | shutdownReturns (err : Option GoError)
  deriving DecidableEq, Repr

/-- One statement of the main goroutine; `none` when it is blocked. -/
def stepMain (s : State) : Option State :=
  match s.mainPc with
  | .start =>
    some { s with port := some (mainPort s.env), server := some (mainServer s.env),
                  mainPc := .spawn }
  | .spawn => some { s with goPc := .logStarting, mainPc := .notify }
  | .notify => some { s with notified := true, mainPc := .waitQuit }
  | .waitQuit =>
    match s.quit with
    | some sig => some { s with quit := none, received := s.received ++ [sig],
                                mainPc := .logShutting }
    | none => none
  | .logShutting =>
    some { s with log := slog.Info s.log (str "Shutting down server...") [],
                  mainPc := .callShutdown }
  | .callShutdown =>
    some { s with shutdownTimeout := some (30 * time.Second),
                  shutdownCalls := s.shutdownCalls + 1, mainPc := .inShutdown }
  | .inShutdown => none
  | .logForced err =>
    some { s with log := slog.Error s.log (str "Server forced to shutdown")
                    [(str "error", err.Error)],
                  mainPc := .exit1 }
  | .exit1 => some { s with status := .exited 1 }
  | .logExited =>
    some { s with log := slog.Info s.log (str "Server exited") [], mainPc := .ret }
  | .ret => some { s with status := .exited 0 }

/-- One statement of the goroutine of line 37; `none` when it is blocked, not
started or finished. -/
def stepGo (s : State) : Option State :=
  match s.goPc with
  | .notStarted => none
  | .logStarting =>
    some { s with log := slog.Info s.log (str "Starting server")
                    [(str "port", s.port.getD (str ""))],
                  goPc := .callListen }
  | .callListen => some { s with listenCalls := s.listenCalls + 1, goPc := .inListen }
  | .inListen => none
  | .logFailed err =>
    some { s with log := slog.Error s.log (str "Server failed to start")
                    [(str "error", err.Error)],
                  goPc := .exit1 }
  | .exit1 => some { s with status := .exited 1 }
  | .done => none

/-- Delivery of a signal: `SIGINT` and `SIGTERM` are relayed to `quit` once
`signal.Notify` has run (the send does not block: a signal that finds the
channel full is dropped); otherwise the default action ends the process. -/
def deliver (s : State) (sig : Signal) : State :=
  if s.notified ∧ (sig = .SIGINT ∨ sig = .SIGTERM) then
    match s.quit with
    | none => { s with quit := some sig }
    | some _ => s
  else { s with status := .killed sig }

/-- The return of `ListenAndServe` with `err`, and the test
`err != nil && err != http.ErrServerClosed` of line 39 on it. -/
def listenReturn (s : State) (err : Option GoError) : Option State :=
  match s.goPc with
  | .inListen =>
    match err with
    | some e =>
      if e ≠ .ErrServerClosed then
        some { s with listenResult := some err, goPc := .logFailed e }
      else some { s with listenResult := some err, goPc := .done }
    | none => some { s with listenResult := some err, goPc := .done }
  | _ => none

/-- The return of `Shutdown` with `err`, and the test `err != nil` of line 57
on it. -/
def shutdownReturn (s : State) (err : Option GoError) : Option State :=
  match s.mainPc with
  | .inShutdown =>
    match err with
    | some e => some { s with shutdownResult := some err, mainPc := .logForced e }
    | none => some { s with shutdownResult := some err, mainPc := .logExited }
  | _ => none

/-- One step of the process; `none` when the event cannot happen in `s`.
Nothing happens in a process that has ended. -/
def step (s : State) (ev : Event) : Option State :=
  if s.status ≠ .running then none
  else
    match ev with
    | .main => stepMain s
    | .go => stepGo s
    | .signal sig => some (deliver s sig)
    | .listenReturns err => listenReturn s err
    | .shutdownReturns err => shutdownReturn s err

/-- The process after a schedule of events, from `s`. -/
def run (s : State) : List Event → Option State
  | [] => some s
  | ev :: evs => (step s ev).bind (fun s1 => run s1 evs)

/-- The program `main`, started in the environment `env` and run under the
schedule `sched`: the state it is in afterwards, `none` if the schedule asks for
an event that cannot happen. -/
def main (env : Environ) (sched : List Event) : Option State :=
  run (State.init env) sched

/-- The states `main` can be in: those some schedule leads to from the start. -/
def Reachable (env : Environ) (s : State) : Prop :=
  ∃ sched : List Event, main env sched = some s

/-! ## `main`: the invariant of the reachable states -/

/-- The record of line 40. -/
def failedRecord (e : GoError) : Record :=
  { level := .error, msg := str "Server failed to start", attrs := [(str "error", e.Error)] }

/-- The record of line 58. -/
def forcedRecord (e : GoError) : Record :=
  { level := .error, msg := str "Server forced to shutdown", attrs := [(str "error", e.Error)] }

/-- The record of line 62. -/
def exitedRecord : Record :=
  { level := .info, msg := str "Server exited", attrs := [] }

/-- What the position of the main goroutine says about the history. -/
def MainInv (s : State) : Prop :=
  match s.mainPc with
  | .start => s.received = [] ∧ s.shutdownCalls = 0 ∧ s.shutdownResult = none
  | .spawn => s.received = [] ∧ s.shutdownCalls = 0 ∧ s.shutdownResult = none
  | .notify => s.received = [] ∧ s.shutdownCalls = 0 ∧ s.shutdownResult = none
  | .waitQuit => s.received = [] ∧ s.shutdownCalls = 0 ∧ s.shutdownResult = none
  | .logShutting => s.received ≠ [] ∧ s.shutdownCalls = 0 ∧ s.shutdownResult = none
  | .callShutdown => s.received ≠ [] ∧ s.shutdownCalls = 0 ∧ s.shutdownResult = none
  | .inShutdown => s.received ≠ [] ∧ s.shutdownCalls = 1 ∧ s.shutdownResult = none
  | .logForced e => s.received ≠ [] ∧ s.shutdownCalls = 1 ∧ s.shutdownResult = some (some e)
  | .exit1 => s.received ≠ [] ∧ s.shutdownCalls = 1 ∧
      ∃ e, s.shutdownResult = some (some e) ∧ forcedRecord e ∈ s.log
  | .logExited => s.received ≠ [] ∧ s.shutdownCalls = 1 ∧ s.shutdownResult = some none
  | .ret => s.received ≠ [] ∧ s.shutdownCalls = 1 ∧ s.shutdownResult = some none ∧
      exitedRecord ∈ s.log

/-- What the position of the server goroutine says about the history. -/
def GoInv (s : State) : Prop :=
  match s.goPc with
  | .notStarted => s.listenCalls = 0 ∧ s.listenResult = none
  | .logStarting => s.listenCalls = 0 ∧ s.listenResult = none
  | .callListen => s.listenCalls = 0 ∧ s.listenResult = none
  | .inListen => s.listenCalls = 1 ∧ s.listenResult = none
  | .logFailed e => s.listenCalls = 1 ∧ s.listenResult = some (some e) ∧ e ≠ .ErrServerClosed
  | .exit1 => s.listenCalls = 1 ∧
      ∃ e, s.listenResult = some (some e) ∧ e ≠ .ErrServerClosed ∧ failedRecord e ∈ s.log
  | .done => s.listenCalls = 1 ∧
      (s.listenResult = some none ∨ s.listenResult = some (some .ErrServerClosed))

/-- Which statement ended the process, if it has ended. -/
def StatusInv (s : State) : Prop :=
  match s.status with
  | .running => True
  | .exited c => (c = 0 ∧ s.mainPc = .ret) ∨ (c = 1 ∧ (s.mainPc = .exit1 ∨ s.goPc = .exit1))
  | .killed _ => True

/-- Only `SIGINT` and `SIGTERM` travel through `quit`, and only after
`signal.Notify`. -/
def SignalInv (s : State) : Prop :=
  (∀ sig, s.quit = some sig → sig = .SIGINT ∨ sig = .SIGTERM) ∧
  (∀ sig ∈ s.received, sig = .SIGINT ∨ sig = .SIGTERM) ∧ s.received.length ≤ 1

/-- The server goroutine does not exist before the `go` statement. -/
def SpawnInv (s : State) : Prop :=
  s.mainPc = .start ∨ s.mainPc = .spawn → s.goPc = .notStarted

/-- The invariant of `main`. -/
def Inv (s : State) : Prop := MainInv s ∧ GoInv s ∧ StatusInv s ∧ SignalInv s ∧ SpawnInv s

/-! ## `main`: some schedules and the states they lead to -/

/-- A usual run of `main`: start, serve, `SIGTERM`, clean shutdown. -/
def cleanSchedule : List Event :=
  [.main, .main, .main, .go, .go, .signal .SIGTERM, .main, .main, .main,
   .listenReturns (some .ErrServerClosed), .shutdownReturns none, .main, .main]

/-- The state in which `main` has just called `Shutdown`, after `SIGTERM`. -/
def inShutdownState : State :=
  { env := [], status := .running, mainPc := .inShutdown, goPc := .inListen,
    port := some (str "8080"), server := some (mainServer []), notified := true, quit := none,
    shutdownTimeout := some (30 * time.Second),
    log := [{ level := .info, msg := str "Starting server", attrs := [(str "port", str "8080")] },
      { level := .info, msg := str "Shutting down server...", attrs := [] }],
    received := [.SIGTERM], listenCalls := 1, shutdownCalls := 1, listenResult := none,
    shutdownResult := none }

/-- The state after `cleanSchedule`: a clean exit. -/
def cleanExitState : State :=
  { env := [], status := .exited 0, mainPc := .ret, goPc := .done,
    port := some (str "8080"), server := some (mainServer []), notified := true, quit := none,
    shutdownTimeout := some (30 * time.Second),
    log := [{ level := .info, msg := str "Starting server", attrs := [(str "port", str "8080")] },
      { level := .info, msg := str "Shutting down server...", attrs := [] },
      { level := .info, msg := str "Server exited", attrs := [] }],
    received := [.SIGTERM], listenCalls := 1, shutdownCalls := 1,
    listenResult := some (some .ErrServerClosed), shutdownResult := some none }

/-- A run in which binding fails and `SIGTERM` arrives before the server
goroutine has reached its `os.Exit(1)`: the goroutine logs the failure, the
main goroutine receives the signal, `Shutdown` returns nil at once (nothing is
listening), and `main` returns. -/
def raceSchedule : List Event :=
  [.main, .main, .main, .go, .go,
   .listenReturns (some (.other (str "listen tcp 0.0.0.0:8080: bind: address already in use"))),
   .go, .signal .SIGTERM, .main, .main, .main, .shutdownReturns none, .main, .main]

/-! ## Facts about the embedding of the handler -/

theorem str_empty : str "" = [] := rfl

theorem str_slash : str "/" = [47] := rfl

theorem str_helloWorld : str "Hello World!" = [72, 101, 108, 108, 111, 32, 87, 111, 114, 108, 100, 33] := rfl

theorem str_helloComma : str "Hello, " = [72, 101, 108, 108, 111, 44, 32] := rfl

theorem str_bang : str "!" = [33] := rfl

/-- The format `"Hello, %s!"` applied to one operand. -/
theorem Sprintf_hello (p : GoString) :
    Sprintf (str "Hello, %s!") [p] = str "Hello, " ++ p ++ str "!" := rfl

/-- The format `"0.0.0.0:%s"` applied to one operand. -/
theorem Sprintf_addr (p : GoString) :
    Sprintf (str "0.0.0.0:%s") [p] = str "0.0.0.0:" ++ p := by
  show str "0.0.0.0:" ++ (p ++ []) = _
  rw [List.append_nil]

/-- A personalised greeting is never the text `Hello World!`: the sixth byte
is a comma in the one and a blank in the other. -/
theorem greeting_ne_helloWorld (p : GoString) :
    str "Hello, " ++ p ++ str "!" ≠ str "Hello World!" := by
  rw [str_helloComma, str_helloWorld]
  intro h
  simp at h

/-- The handler on a path of at least one byte: the first byte is dropped,
whatever it is, and the greeting is chosen by the rest. -/
theorem HelloServer_cons (w : ResponseRecorder) (r : Request) (log : Log) (c : UInt8)
    (rest : GoString) (h : r.URL.Path = c :: rest) :
    HelloServer w r log =
      { w := (withContentType w).Write
          (if rest = [] then str "Hello World!" else str "Hello, " ++ rest ++ str "!"),
        log := withRequestRecord log r, panic := none } := by
  unfold HelloServer
  simp only [h, sliceFrom, List.length_cons, List.drop_succ_cons, List.drop_zero, str_empty]
  by_cases hr : rest = []
  · simp [hr, Fprint, Sprint, withContentType, withRequestRecord, h]
  · simp [hr, Fprintf, Sprintf_hello, withContentType, withRequestRecord, h]

/-- The handler on the empty path: the slice expression panics. -/
theorem HelloServer_nil (w : ResponseRecorder) (r : Request) (log : Log)
    (h : r.URL.Path = []) :
    HelloServer w r log =
      { w := withContentType w, log := withRequestRecord log r,
        panic := some (.sliceBoundsOutOfRange 1 0) } := by
  unfold HelloServer
  simp [h, sliceFrom, withContentType, withRequestRecord]

/-! ## The tests of `main_test.go`, replayed on the embedding -/

/-- The table of `TestHelloServer`: status, body and content type of the five cases. -/
theorem TestHelloServer_table :
    ∀ c ∈ [(str "/", str "Hello World!"), (str "/John", str "Hello, John!"),
        (str "/John/Doe", str "Hello, John/Doe!"), (str "/user-123", str "Hello, user-123!"),
        (str "//", str "Hello, /!")],
      (HelloServer NewRecorder (getRequest c.1) []).w.Code = 200 ∧
      (HelloServer NewRecorder (getRequest c.1) []).w.Body = c.2 ∧
      Header.Get (HelloServer NewRecorder (getRequest c.1) []).w.HeaderMap (str "Content-Type")
        = str "text/plain; charset=utf-8" := by
  decide

/-- The cases of `TestHelloServerWithDifferentHTTPMethods`, `...WithRequestBody`,
`...WithQueryParameters` and `...WithHeaders`: always `200` and `Hello, test!`. -/
theorem TestHelloServer_variants :
    ∀ r ∈ [mkRequest (str "GET") (str "/test") [] [] (str "192.0.2.1:1234") [],
        mkRequest (str "POST") (str "/test") [] [] (str "192.0.2.1:1234") [],
        mkRequest (str "PUT") (str "/test") [] [] (str "192.0.2.1:1234") [],
        mkRequest (str "DELETE") (str "/test") [] [] (str "192.0.2.1:1234") [],
        mkRequest (str "PATCH") (str "/test") [] [] (str "192.0.2.1:1234") [],
        mkRequest (str "POST") (str "/test") [] (str "test body") (str "192.0.2.1:1234") [],
        mkRequest (str "GET") (str "/test") (str "param1=value1&param2=value2") []
          (str "192.0.2.1:1234") [],
        mkRequest (str "GET") (str "/test") [] [] (str "192.168.1.1:12345")
          [(str "User-Agent", [str "test-agent"]), (str "Accept", [str "text/plain"])]],
      (HelloServer NewRecorder r []).w.Code = 200 ∧
      (HelloServer NewRecorder r []).w.Body = str "Hello, test!" := by
  decide

/-! ## The handler: body, status, header, failure -/

/-- The body after a write: the old body followed by the written bytes. -/
theorem Write_Body (w : ResponseRecorder) (buf : GoString) :
    (w.Write buf).Body = w.Body ++ buf := by
  unfold ResponseRecorder.Write ResponseRecorder.WriteHeader
  split <;> rfl

/-- A path that begins with `/` is `/` followed by its slice `[1:]`. -/
theorem slash_prefix_path (p : GoString) (h : str "/" <+: p) : p = 47 :: p.drop 1 := by
  obtain ⟨t, rfl⟩ := h
  rfl

/-- C1: for every request whose path `P` begins with `/`, the body written by
`HelloServer` (on a fresh recorder) is `Hello World!` if and only if `P` is `/`,
and for every other such path it is `Hello, ` followed by `P[1:]` followed by
`!`, the bytes of `P[1:]` being copied unchanged. -/
theorem HelloServer_body (r : Request) (log : Log) (h : str "/" <+: r.URL.Path) :
    ((HelloServer NewRecorder r log).w.Body = str "Hello World!" ↔ r.URL.Path = str "/") ∧
    (r.URL.Path ≠ str "/" →
      (HelloServer NewRecorder r log).w.Body
        = str "Hello, " ++ r.URL.Path.drop 1 ++ str "!") := by
  obtain ⟨t, ht⟩ : ∃ t, r.URL.Path = 47 :: t := ⟨_, slash_prefix_path _ h⟩
  rw [HelloServer_cons NewRecorder r log 47 t ht, ht, Write_Body, str_slash]
  have hb : (withContentType NewRecorder).Body = [] := rfl
  rw [hb, List.nil_append, List.drop_succ_cons, List.drop_zero]
  by_cases hr : t = []
  · subst hr
    simp
  · have hne := greeting_ne_helloWorld t
    rw [if_neg hr]
    exact ⟨⟨fun hb => absurd hb hne, fun hc => absurd (List.cons.inj hc).2 hr⟩, fun _ => rfl⟩

/-- The body for the path `//`, through `HelloServer_body`: one slash is
dropped and the second one is greeted. -/
theorem HelloServer_body_witness :
    str "/" <+: (getRequest (str "//")).URL.Path ∧
    (HelloServer NewRecorder (getRequest (str "//")) []).w.Body = str "Hello, /!" :=
  ⟨⟨[47], rfl⟩, (HelloServer_body (getRequest (str "//")) [] ⟨[47], rfl⟩).2 (by decide)⟩

/-- C2: the response of `HelloServer` depends on the request path only: two
requests with the same path, whatever their method, query, headers, body and
remote address, and whatever has been logged before, leave a fresh recorder in
the same state (status, headers, body) and end the same way; in particular
handling one request twice gives identical responses. -/
theorem HelloServer_path_only (r1 r2 : Request) (log1 log2 : Log)
    (h : r1.URL.Path = r2.URL.Path) :
    (HelloServer NewRecorder r1 log1).w = (HelloServer NewRecorder r2 log2).w ∧
    (HelloServer NewRecorder r1 log1).panic = (HelloServer NewRecorder r2 log2).panic ∧
    (HelloServer NewRecorder r1 log1).w
      = (HelloServer NewRecorder r1 (HelloServer NewRecorder r1 log1).log).w := by
  have key : ∀ (ra rb : Request) (la lb : Log), ra.URL.Path = rb.URL.Path →
      (HelloServer NewRecorder ra la).w = (HelloServer NewRecorder rb lb).w ∧
      (HelloServer NewRecorder ra la).panic = (HelloServer NewRecorder rb lb).panic := by
    intro ra rb la lb hab
    cases hb : rb.URL.Path with
    | nil =>
      rw [HelloServer_nil _ ra la (hab.trans hb), HelloServer_nil _ rb lb hb]
      exact ⟨rfl, rfl⟩
    | cons c rest =>
      rw [HelloServer_cons _ ra la c rest (hab.trans hb), HelloServer_cons _ rb lb c rest hb]
      exact ⟨rfl, rfl⟩
  exact ⟨(key r1 r2 log1 log2 h).1, (key r1 r2 log1 log2 h).2, (key r1 r1 log1 _ rfl).1⟩

/-- A `GET` without query and a `POST` with query, body and headers, both for
`/test`, through `HelloServer_path_only`: both answer `200` with `Hello, test!`. -/
theorem HelloServer_path_only_witness :
    (mkRequest (str "GET") (str "/test") [] [] (str "192.0.2.1:1234") []).URL.Path
      = (mkRequest (str "POST") (str "/test") (str "param1=value1&param2=value2")
          (str "test body") (str "192.168.1.1:12345")
          [(str "User-Agent", [str "test-agent"])]).URL.Path ∧
    (HelloServer NewRecorder
        (mkRequest (str "POST") (str "/test") (str "param1=value1&param2=value2")
          (str "test body") (str "192.168.1.1:12345")
          [(str "User-Agent", [str "test-agent"])]) []).w
      = (HelloServer NewRecorder
        (mkRequest (str "GET") (str "/test") [] [] (str "192.0.2.1:1234") []) []).w :=
  ⟨rfl, (HelloServer_path_only _ _ [] [] rfl).1.symm⟩

/-- C3: for every request whose path begins with `/`, the response that
`HelloServer` leaves in a recorder on which nothing was committed before has
status `200`, and its `Content-Type` header is `text/plain; charset=utf-8`, both
in the header map and in the headers committed with the first write. -/
theorem HelloServer_status_contentType (w : ResponseRecorder) (r : Request) (log : Log)
    (h : str "/" <+: r.URL.Path) (hw : w.wroteHeader = false) :
    (HelloServer w r log).w.Code = 200 ∧
    Header.Get (HelloServer w r log).w.HeaderMap (str "Content-Type")
      = str "text/plain; charset=utf-8" ∧
    (HelloServer w r log).w.snapHeader.map (fun hd => Header.Get hd (str "Content-Type"))
      = some (str "text/plain; charset=utf-8") := by
  rw [HelloServer_cons w r log 47 (r.URL.Path.drop 1) (slash_prefix_path _ h)]
  simp [ResponseRecorder.Write, ResponseRecorder.WriteHeader, withContentType,
    ResponseRecorder.HeaderSet, hw, Header.Get, Header.Set]

/-- The status and content type for `/John` on a fresh recorder, through
`HelloServer_status_contentType`. -/
theorem HelloServer_status_contentType_witness :
    (str "/" <+: (getRequest (str "/John")).URL.Path ∧ NewRecorder.wroteHeader = false) ∧
    ((HelloServer NewRecorder (getRequest (str "/John")) []).w.Code = 200 ∧
     Header.Get (HelloServer NewRecorder (getRequest (str "/John")) []).w.HeaderMap
        (str "Content-Type") = str "text/plain; charset=utf-8" ∧
     (HelloServer NewRecorder (getRequest (str "/John")) []).w.snapHeader.map
        (fun hd => Header.Get hd (str "Content-Type"))
        = some (str "text/plain; charset=utf-8")) :=
  ⟨⟨⟨str "John", rfl⟩, rfl⟩,
    HelloServer_status_contentType NewRecorder (getRequest (str "/John")) [] ⟨str "John", rfl⟩ rfl⟩

/-- The header is committed by a write. -/
theorem Write_wroteHeader (w : ResponseRecorder) (buf : GoString) :
    (w.Write buf).wroteHeader = true := by
  unfold ResponseRecorder.Write ResponseRecorder.WriteHeader
  split
  · assumption
  · rfl

/-- C4: `HelloServer` never fails on a path that begins with `/`: the slice
`r.URL.Path[1:]` is within bounds, no panic is raised, and the handler returns
with a complete response written: the header is committed, the `Content-Type`
header is `text/plain; charset=utf-8` in the header map, on a recorder on which
nothing was committed before the status is `200` and the committed headers
carry that `Content-Type`, and the whole greeting is appended to the body. -/
theorem HelloServer_never_fails (w : ResponseRecorder) (r : Request) (log : Log)
    (h : str "/" <+: r.URL.Path) :
    sliceFrom r.URL.Path 1 = .ok (r.URL.Path.drop 1) ∧
    (HelloServer w r log).panic = none ∧
    (HelloServer w r log).w.wroteHeader = true ∧
    Header.Get (HelloServer w r log).w.HeaderMap (str "Content-Type")
      = str "text/plain; charset=utf-8" ∧
    (w.wroteHeader = false →
      (HelloServer w r log).w.Code = 200 ∧
      (HelloServer w r log).w.snapHeader.map (fun hd => Header.Get hd (str "Content-Type"))
        = some (str "text/plain; charset=utf-8")) ∧
    (HelloServer w r log).w.Body = w.Body ++
      (if r.URL.Path = str "/" then str "Hello World!"
        else str "Hello, " ++ r.URL.Path.drop 1 ++ str "!") := by
  obtain ⟨t, ht⟩ : ∃ t, r.URL.Path = 47 :: t := ⟨_, slash_prefix_path _ h⟩
  rw [HelloServer_cons w r log 47 t ht, ht, Write_Body, Write_wroteHeader, str_slash]
  have hb : (withContentType w).Body = w.Body := rfl
  refine ⟨by simp [sliceFrom], rfl, rfl, ?_, ?_, ?_⟩
  · unfold ResponseRecorder.Write ResponseRecorder.WriteHeader
    split <;>
      simp [withContentType, ResponseRecorder.HeaderSet, Header.Get, Header.Set]
  · intro hw
    simp [ResponseRecorder.Write, ResponseRecorder.WriteHeader, withContentType,
      ResponseRecorder.HeaderSet, hw, Header.Get, Header.Set]
  · rw [hb, List.drop_succ_cons, List.drop_zero]
    by_cases hr : t = []
    · subst hr
      simp
    · have : ¬ (47 :: t = [47]) := fun hc => absurd (List.cons.inj hc).2 hr
      rw [if_neg hr, if_neg this]

/-- The path `/John/Doe` on a fresh recorder, through `HelloServer_never_fails`:
no panic, status `200`, the content type in the header map and in the committed
headers, and the greeting as body. -/
theorem HelloServer_never_fails_witness :
    (str "/" <+: (getRequest (str "/John/Doe")).URL.Path ∧ NewRecorder.wroteHeader = false) ∧
    (HelloServer NewRecorder (getRequest (str "/John/Doe")) []).panic = none ∧
    (HelloServer NewRecorder (getRequest (str "/John/Doe")) []).w.wroteHeader = true ∧
    Header.Get (HelloServer NewRecorder (getRequest (str "/John/Doe")) []).w.HeaderMap
      (str "Content-Type") = str "text/plain; charset=utf-8" ∧
    ((HelloServer NewRecorder (getRequest (str "/John/Doe")) []).w.Code = 200 ∧
      (HelloServer NewRecorder (getRequest (str "/John/Doe")) []).w.snapHeader.map
        (fun hd => Header.Get hd (str "Content-Type"))
        = some (str "text/plain; charset=utf-8")) ∧
    (HelloServer NewRecorder (getRequest (str "/John/Doe")) []).w.Body
      = str "Hello, John/Doe!" :=
  ⟨⟨⟨str "John/Doe", rfl⟩, rfl⟩,
    (HelloServer_never_fails NewRecorder (getRequest (str "/John/Doe")) []
      ⟨str "John/Doe", rfl⟩).2.1,
    (HelloServer_never_fails NewRecorder (getRequest (str "/John/Doe")) []
      ⟨str "John/Doe", rfl⟩).2.2.1,
    (HelloServer_never_fails NewRecorder (getRequest (str "/John/Doe")) []
      ⟨str "John/Doe", rfl⟩).2.2.2.1,
    (HelloServer_never_fails NewRecorder (getRequest (str "/John/Doe")) []
      ⟨str "John/Doe", rfl⟩).2.2.2.2.1 rfl,
    (HelloServer_never_fails NewRecorder (getRequest (str "/John/Doe")) []
      ⟨str "John/Doe", rfl⟩).2.2.2.2.2⟩

/-- C9: `HelloServer` panics exactly on the empty path. There the slice
`r.URL.Path[1:]` is out of bounds; when the panic is raised the request has been
logged and the `Content-Type` header has been set, but nothing has been written:
body, status and the committed flag of the recorder are as before the call. -/
theorem HelloServer_panics_iff_empty (w : ResponseRecorder) (r : Request) (log : Log) :
    ((HelloServer w r log).panic ≠ none ↔ r.URL.Path.length = 0) ∧
    (r.URL.Path = str "" →
      sliceFrom r.URL.Path 1 = .error (.sliceBoundsOutOfRange 1 0) ∧
      (HelloServer w r log).panic = some (.sliceBoundsOutOfRange 1 0) ∧
      (HelloServer w r log).log = log ++
        [{ level := .info, msg := str "Handling request",
           attrs := [(str "method", r.Method), (str "path", str ""),
             (str "remote_addr", r.RemoteAddr)] }] ∧
      Header.Get (HelloServer w r log).w.HeaderMap (str "Content-Type")
        = str "text/plain; charset=utf-8" ∧
      (HelloServer w r log).w.Body = w.Body ∧
      (HelloServer w r log).w.Code = w.Code ∧
      (HelloServer w r log).w.wroteHeader = w.wroteHeader) := by
  constructor
  · cases hp : r.URL.Path with
    | nil => rw [HelloServer_nil w r log hp]; simp
    | cons c rest => rw [HelloServer_cons w r log c rest hp]; simp
  · intro hp
    rw [str_empty] at hp
    rw [HelloServer_nil w r log hp, str_empty]
    simp [hp, sliceFrom, withRequestRecord, slog.Info, withContentType,
      ResponseRecorder.HeaderSet, Header.Get, Header.Set]

/-- The empty path on a fresh recorder, through `HelloServer_panics_iff_empty`:
a panic, and an empty body. -/
theorem HelloServer_panics_iff_empty_witness :
    (getRequest (str "")).URL.Path = str "" ∧
    (HelloServer NewRecorder (getRequest (str "")) []).panic
      = some (.sliceBoundsOutOfRange 1 0) ∧
    (HelloServer NewRecorder (getRequest (str "")) []).w.Body = [] :=
  ⟨rfl, ((HelloServer_panics_iff_empty NewRecorder (getRequest (str "")) []).2 rfl).2.1,
    ((HelloServer_panics_iff_empty NewRecorder (getRequest (str "")) []).2 rfl).2.2.2.2.1⟩

/-- C10: `HelloServer` drops the first byte of the path without looking at it:
for every non-empty path `P` the body (on a fresh recorder) is `Hello World!` if
`P` has one byte and `Hello, ` ++ `P[1:]` ++ `!` otherwise; hence two non-empty
paths with the same slice `[1:]` get the same body, whatever their first bytes. -/
theorem HelloServer_drops_first_byte (r : Request) (log : Log) (h : r.URL.Path ≠ str "") :
    (HelloServer NewRecorder r log).panic = none ∧
    (HelloServer NewRecorder r log).w.Body
      = (if r.URL.Path.length = 1 then str "Hello World!"
          else str "Hello, " ++ r.URL.Path.drop 1 ++ str "!") ∧
    ∀ (r2 : Request) (log2 : Log), r2.URL.Path ≠ str "" →
      r2.URL.Path.drop 1 = r.URL.Path.drop 1 →
      (HelloServer NewRecorder r2 log2).w.Body = (HelloServer NewRecorder r log).w.Body := by
  have body : ∀ (ra : Request) (la : Log) (c : UInt8) (t : GoString), ra.URL.Path = c :: t →
      (HelloServer NewRecorder ra la).w.Body
        = (if t = [] then str "Hello World!" else str "Hello, " ++ t ++ str "!") := by
    intro ra la c t hra
    rw [HelloServer_cons NewRecorder ra la c t hra, Write_Body]
    rfl
  rw [str_empty] at h
  obtain ⟨c, t, ht⟩ : ∃ c t, r.URL.Path = c :: t := List.exists_cons_of_ne_nil h
  refine ⟨by rw [HelloServer_cons NewRecorder r log c t ht], ?_, ?_⟩
  · rw [body r log c t ht, ht, List.drop_succ_cons, List.drop_zero]
    by_cases hr : t = []
    · subst hr; simp
    · have : ¬ ((c :: t).length = 1) := by
        cases t with
        | nil => exact absurd rfl hr
        | cons d u => simp
      rw [if_neg hr, if_neg this]
  · intro r2 log2 h2 hd
    rw [str_empty] at h2
    obtain ⟨c2, t2, ht2⟩ : ∃ c t, r2.URL.Path = c :: t := List.exists_cons_of_ne_nil h2
    rw [ht, ht2, List.drop_succ_cons, List.drop_succ_cons, List.drop_zero, List.drop_zero] at hd
    rw [body r log c t ht, body r2 log2 c2 t2 ht2, hd]

/-- The paths `*` (as in `OPTIONS *`), `/John` and `xJohn`, through
`HelloServer_drops_first_byte`: `*` is not `/` and is answered `Hello World!`;
`xJohn` is answered like `/John`. -/
theorem HelloServer_drops_first_byte_witness :
    (getRequest (str "*")).URL.Path ≠ str "" ∧ str "*" ≠ str "/" ∧
    (HelloServer NewRecorder (getRequest (str "*")) []).w.Body = str "Hello World!" ∧
    (HelloServer NewRecorder (getRequest (str "xJohn")) []).w.Body
      = (HelloServer NewRecorder (getRequest (str "/John")) []).w.Body ∧
    (HelloServer NewRecorder (getRequest (str "xJohn")) []).w.Body = str "Hello, John!" :=
  ⟨by decide, by decide,
    (HelloServer_drops_first_byte (getRequest (str "*")) [] (by decide)).2.1,
    (HelloServer_drops_first_byte (getRequest (str "/John")) [] (by decide)).2.2
      (getRequest (str "xJohn")) [] (by decide) rfl,
    (HelloServer_drops_first_byte (getRequest (str "xJohn")) [] (by decide)).2.1⟩

/-! ## `main`: the invariant holds in every reachable state -/

theorem MainInv_frame (s : State) {s1 : State} (h1 : s1.mainPc = s.mainPc)
    (h2 : s1.received = s.received) (h3 : s1.shutdownCalls = s.shutdownCalls)
    (h4 : s1.shutdownResult = s.shutdownResult) (h5 : ∀ r ∈ s.log, r ∈ s1.log)
    (h : MainInv s) : MainInv s1 := by
  unfold MainInv at *
  rw [h1, h2, h3, h4]
  cases hpc : s.mainPc <;> simp only [hpc] at h ⊢ <;> try exact h
  · obtain ⟨ha, hb, e, hc, hd⟩ := h
    exact ⟨ha, hb, e, hc, h5 _ hd⟩
  · obtain ⟨ha, hb, hc, hd⟩ := h
    exact ⟨ha, hb, hc, h5 _ hd⟩

theorem GoInv_frame (s : State) {s1 : State} (h1 : s1.goPc = s.goPc)
    (h2 : s1.listenCalls = s.listenCalls) (h3 : s1.listenResult = s.listenResult)
    (h5 : ∀ r ∈ s.log, r ∈ s1.log) (h : GoInv s) : GoInv s1 := by
  unfold GoInv at *
  rw [h1, h2, h3]
  cases hpc : s.goPc <;> simp only [hpc] at h ⊢ <;> try exact h
  obtain ⟨ha, e, hb, hc, hd⟩ := h
  exact ⟨ha, e, hb, hc, h5 _ hd⟩

theorem mem_Info {log : Log} {m : GoString} {a : List (GoString × GoString)} :
    ∀ r ∈ log, r ∈ slog.Info log m a := by
  intro r hr
  exact List.mem_append_left _ hr

theorem mem_Error {log : Log} {m : GoString} {a : List (GoString × GoString)} :
    ∀ r ∈ log, r ∈ slog.Error log m a := by
  intro r hr
  exact List.mem_append_left _ hr

theorem Inv_init (env : Environ) : Inv (State.init env) := by
  simp [Inv, MainInv, GoInv, StatusInv, SignalInv, SpawnInv, State.init]

theorem Inv_stepMain (s s1 : State) (hs : Inv s) (hrun : s.status = .running)
    (h : stepMain s = some s1) : Inv s1 := by
  obtain ⟨hm, hg, -, hq, hsp⟩ := hs
  unfold stepMain at h
  unfold Inv
  cases hpc : s.mainPc <;> rw [hpc] at h <;> simp only [MainInv, hpc] at hm
  case start =>
    simp only [Option.some.injEq] at h
    subst h
    refine ⟨?_, GoInv_frame s rfl rfl rfl (fun _ hr => hr) hg, ?_, hq, ?_⟩
    · simpa [MainInv] using hm
    · simp [StatusInv, hrun]
    · simpa [SpawnInv, hpc] using hsp
  case spawn =>
    simp only [Option.some.injEq] at h
    subst h
    have hgo : s.goPc = .notStarted := hsp (by simp [hpc])
    have hg0 : s.listenCalls = 0 ∧ s.listenResult = none := by simpa [GoInv, hgo] using hg
    refine ⟨?_, ?_, ?_, hq, ?_⟩
    · simpa [MainInv] using hm
    · simpa [GoInv] using hg0
    · simp [StatusInv, hrun]
    · simp [SpawnInv]
  case notify =>
    simp only [Option.some.injEq] at h
    subst h
    refine ⟨?_, GoInv_frame s rfl rfl rfl (fun _ hr => hr) hg, ?_, hq, ?_⟩
    · simpa [MainInv] using hm
    · simp [StatusInv, hrun]
    · simp [SpawnInv]
  case waitQuit =>
    cases hqv : s.quit with
    | none => simp [hqv] at h
    | some sig =>
      simp only [hqv, Option.some.injEq] at h
      subst h
      refine ⟨?_, GoInv_frame s rfl rfl rfl (fun _ hr => hr) hg, ?_, ?_, ?_⟩
      · simp [MainInv, hm.2.1, hm.2.2]
      · simp [StatusInv, hrun]
      · simp [SignalInv, hm.1]
        exact hq.1 sig hqv
      · simp [SpawnInv]
  case logShutting =>
    simp only [Option.some.injEq] at h
    subst h
    refine ⟨?_, GoInv_frame s rfl rfl rfl mem_Info hg, ?_, hq, ?_⟩
    · simpa [MainInv] using hm
    · simp [StatusInv, hrun]
    · simp [SpawnInv]
  case callShutdown =>
    simp only [Option.some.injEq] at h
    subst h
    refine ⟨?_, GoInv_frame s rfl rfl rfl (fun _ hr => hr) hg, ?_, hq, ?_⟩
    · simpa [MainInv] using hm
    · simp [StatusInv, hrun]
    · simp [SpawnInv]
  case inShutdown => simp at h
  case logForced e =>
    simp only [Option.some.injEq] at h
    subst h
    refine ⟨?_, GoInv_frame s rfl rfl rfl mem_Error hg, ?_, hq, ?_⟩
    · simp [MainInv, hm.1, hm.2.1, hm.2.2, slog.Error, forcedRecord]
    · simp [StatusInv, hrun]
    · simp [SpawnInv]
  case exit1 =>
    simp only [Option.some.injEq] at h
    subst h
    refine ⟨?_, GoInv_frame s rfl rfl rfl (fun _ hr => hr) hg, ?_, hq, ?_⟩
    · simpa [MainInv, hpc] using hm
    · simp [StatusInv, hpc]
    · simp [SpawnInv, hpc]
  case logExited =>
    simp only [Option.some.injEq] at h
    subst h
    refine ⟨?_, GoInv_frame s rfl rfl rfl mem_Info hg, ?_, hq, ?_⟩
    · simp [MainInv, hm.1, hm.2.1, hm.2.2, slog.Info, exitedRecord]
    · simp [StatusInv, hrun]
    · simp [SpawnInv]
  case ret =>
    simp only [Option.some.injEq] at h
    subst h
    refine ⟨?_, GoInv_frame s rfl rfl rfl (fun _ hr => hr) hg, ?_, hq, ?_⟩
    · simpa [MainInv, hpc] using hm
    · simp [StatusInv, hpc]
    · simp [SpawnInv, hpc]

theorem Inv_stepGo (s s1 : State) (hs : Inv s) (hrun : s.status = .running)
    (h : stepGo s = some s1) : Inv s1 := by
  obtain ⟨hm, hg, -, hq, hsp⟩ := hs
  unfold stepGo at h
  unfold Inv
  have hsp1 : ∀ g : GoPc, s.goPc ≠ .notStarted → ¬ (s.mainPc = .start ∨ s.mainPc = .spawn) :=
    fun _ hne hc => hne (hsp hc)
  cases hpc : s.goPc <;> rw [hpc] at h <;> simp only [GoInv, hpc] at hg
  case notStarted => simp at h
  case inListen => simp at h
  case done => simp at h
  case logStarting =>
    simp only [Option.some.injEq] at h
    subst h
    refine ⟨MainInv_frame s rfl rfl rfl rfl mem_Info hm, ?_, ?_, hq, ?_⟩
    · simpa [GoInv] using hg
    · simp [StatusInv, hrun]
    · intro hc
      exact absurd hc (hsp1 .done (by simp [hpc]))
  case callListen =>
    simp only [Option.some.injEq] at h
    subst h
    refine ⟨MainInv_frame s rfl rfl rfl rfl (fun _ hr => hr) hm, ?_, ?_, hq, ?_⟩
    · simpa [GoInv] using hg
    · simp [StatusInv, hrun]
    · intro hc
      exact absurd hc (hsp1 .done (by simp [hpc]))
  case logFailed e =>
    simp only [Option.some.injEq] at h
    subst h
    refine ⟨MainInv_frame s rfl rfl rfl rfl mem_Error hm, ?_, ?_, hq, ?_⟩
    · simp [GoInv, hg.1, hg.2.1, hg.2.2, slog.Error, failedRecord]
    · simp [StatusInv, hrun]
    · intro hc
      exact absurd hc (hsp1 .done (by simp [hpc]))
  case exit1 =>
    simp only [Option.some.injEq] at h
    subst h
    refine ⟨MainInv_frame s rfl rfl rfl rfl (fun _ hr => hr) hm, ?_, ?_, hq, ?_⟩
    · simpa [GoInv, hpc] using hg
    · simp [StatusInv, hpc]
    · intro hc
      exact absurd hc (hsp1 .done (by simp [hpc]))

theorem Inv_deliver (s : State) (sig : Signal) (hs : Inv s) (hrun : s.status = .running) :
    Inv (deliver s sig) := by
  obtain ⟨hm, hg, -, hq, hsp⟩ := hs
  unfold deliver
  unfold Inv
  split
  · rename_i hn
    cases hqv : s.quit with
    | none =>
      refine ⟨MainInv_frame s rfl rfl rfl rfl (fun _ hr => hr) hm,
        GoInv_frame s rfl rfl rfl (fun _ hr => hr) hg, ?_, ?_, hsp⟩
      · simp [StatusInv, hrun]
      · refine ⟨?_, hq.2⟩
        intro sg hsg
        simp only [Option.some.injEq] at hsg
        subst hsg
        exact hn.2
    | some old =>
      refine ⟨hm, hg, ?_, hq, hsp⟩
      simp [StatusInv, hrun]
  · refine ⟨MainInv_frame s rfl rfl rfl rfl (fun _ hr => hr) hm,
      GoInv_frame s rfl rfl rfl (fun _ hr => hr) hg, ?_, hq, hsp⟩
    simp [StatusInv]

theorem Inv_listenReturn (s s1 : State) (err : Option GoError) (hs : Inv s)
    (hrun : s.status = .running) (h : listenReturn s err = some s1) : Inv s1 := by
  obtain ⟨hm, hg, -, hq, hsp⟩ := hs
  unfold listenReturn at h
  unfold Inv
  have hsp1 : s.goPc ≠ .notStarted → ¬ (s.mainPc = .start ∨ s.mainPc = .spawn) :=
    fun hne hc => hne (hsp hc)
  cases hpc : s.goPc <;> rw [hpc] at h <;> simp only [GoInv, hpc] at hg <;>
    try (simp at h; done)
  have hns := hsp1 (by simp [hpc])
  rcases err with _ | e
  · simp only [Option.some.injEq] at h
    subst h
    refine ⟨MainInv_frame s rfl rfl rfl rfl (fun _ hr => hr) hm, ?_, ?_, hq, ?_⟩
    · simp [GoInv, hg.1]
    · simp [StatusInv, hrun]
    · intro hc
      exact absurd hc hns
  · by_cases he : e = GoError.ErrServerClosed
    · simp only [he, ne_eq, not_true_eq_false, if_false, Option.some.injEq] at h
      subst h
      refine ⟨MainInv_frame s rfl rfl rfl rfl (fun _ hr => hr) hm, ?_, ?_, hq, ?_⟩
      · simp [GoInv, hg.1]
      · simp [StatusInv, hrun]
      · intro hc
        exact absurd hc hns
    · simp only [ne_eq, he, not_false_eq_true, if_true, Option.some.injEq] at h
      subst h
      refine ⟨MainInv_frame s rfl rfl rfl rfl (fun _ hr => hr) hm, ?_, ?_, hq, ?_⟩
      · simp [GoInv, hg.1, he]
      · simp [StatusInv, hrun]
      · intro hc
        exact absurd hc hns

theorem Inv_shutdownReturn (s s1 : State) (err : Option GoError) (hs : Inv s)
    (hrun : s.status = .running) (h : shutdownReturn s err = some s1) : Inv s1 := by
  obtain ⟨hm, hg, -, hq, hsp⟩ := hs
  unfold shutdownReturn at h
  unfold Inv
  cases hpc : s.mainPc <;> rw [hpc] at h <;> simp only [MainInv, hpc] at hm <;>
    try (simp at h; done)
  rcases err with _ | e
  · simp only [Option.some.injEq] at h
    subst h
    refine ⟨?_, GoInv_frame s rfl rfl rfl (fun _ hr => hr) hg, ?_, hq, ?_⟩
    · simp [MainInv, hm.1, hm.2.1]
    · simp [StatusInv, hrun]
    · simp [SpawnInv]
  · simp only [Option.some.injEq] at h
    subst h
    refine ⟨?_, GoInv_frame s rfl rfl rfl (fun _ hr => hr) hg, ?_, hq, ?_⟩
    · simp [MainInv, hm.1, hm.2.1]
    · simp [StatusInv, hrun]
    · simp [SpawnInv]

/-- A process that takes a step was running. -/
theorem running_of_step (s s1 : State) (ev : Event) (h : step s ev = some s1) :
    s.status = .running := by
  unfold step at h
  by_contra hc
  simp [hc] at h

/-- Every step keeps the invariant. -/
theorem Inv_step (s s1 : State) (ev : Event) (hs : Inv s) (h : step s ev = some s1) :
    Inv s1 := by
  have hrun := running_of_step s s1 ev h
  unfold step at h
  simp only [hrun, ne_eq, not_true_eq_false, if_false] at h
  cases ev with
  | main => exact Inv_stepMain s s1 hs hrun h
  | go => exact Inv_stepGo s s1 hs hrun h
  | signal sig =>
    simp only [Option.some.injEq] at h
    subst h
    exact Inv_deliver s sig hs hrun
  | listenReturns err => exact Inv_listenReturn s s1 err hs hrun h
  | shutdownReturns err => exact Inv_shutdownReturn s s1 err hs hrun h

/-- Every schedule keeps the invariant. -/
theorem Inv_run (evs : List Event) (s s1 : State) (hs : Inv s) (h : run s evs = some s1) :
    Inv s1 := by
  induction evs generalizing s with
  | nil =>
    simp only [run, Option.some.injEq] at h
    subst h
    exact hs
  | cons ev evs ih =>
    simp only [run] at h
    cases hst : step s ev with
    | none => simp [hst] at h
    | some s2 =>
      rw [hst] at h
      exact ih s2 (Inv_step s s2 ev hs hst) h

/-- Every reachable state satisfies the invariant. -/
theorem Inv_of_Reachable (env : Environ) (s : State) (h : Reachable env s) : Inv s := by
  obtain ⟨evs, hevs⟩ := h
  exact Inv_run evs _ s (Inv_init env) hevs

/-! ## `main`: the listen address -/

/-- C5: the listen address is `0.0.0.0:8080` when `PORT` is unset or empty,
and `0.0.0.0:` followed by the value of `PORT`, byte for byte, otherwise; it is
the address of the server value that the first statements of `main` build. -/
theorem mainServer_Addr (env : Environ) :
    (env.find? (fun kv => kv.1 = str "PORT") = none → os.Getenv env (str "PORT") = str "") ∧
    (os.Getenv env (str "PORT") = str "" → (mainServer env).Addr = str "0.0.0.0:8080") ∧
    (os.Getenv env (str "PORT") ≠ str "" →
      (mainServer env).Addr = str "0.0.0.0:" ++ os.Getenv env (str "PORT")) ∧
    (main env [.main]).bind (fun s => s.server.map (fun sv => sv.Addr))
      = some (mainServer env).Addr := by
  refine ⟨?_, ?_, ?_, rfl⟩
  · intro h
    simp [os.Getenv, h]
  · intro h
    simp only [mainServer, mainPort, h, if_true, Sprintf_addr]
    rfl
  · intro h
    simp only [mainServer, mainPort, h, if_false, Sprintf_addr]

/-- The addresses of `TestServerConfiguration`, through `mainServer_Addr`:
`PORT` unset, `PORT=9090` and `PORT=08080`; and `PORT` set to the empty string. -/
theorem mainServer_Addr_witness :
    (mainServer []).Addr = str "0.0.0.0:8080" ∧
    (mainServer [(str "PORT", str "")]).Addr = str "0.0.0.0:8080" ∧
    (mainServer [(str "PORT", str "9090")]).Addr = str "0.0.0.0:9090" ∧
    (mainServer [(str "HOME", str "/root"), (str "PORT", str "08080")]).Addr
      = str "0.0.0.0:08080" :=
  ⟨(mainServer_Addr []).2.1 ((mainServer_Addr []).1 rfl),
    (mainServer_Addr [(str "PORT", str "")]).2.1 (by decide),
    (mainServer_Addr [(str "PORT", str "9090")]).2.2.1 (by decide),
    (mainServer_Addr [(str "HOME", str "/root"), (str "PORT", str "08080")]).2.2.1 (by decide)⟩

/-- The timeouts of `TestServerConfiguration`. -/
theorem mainServer_timeouts (env : Environ) :
    (mainServer env).ReadTimeout = 15 * time.Second ∧
    (mainServer env).WriteTimeout = 15 * time.Second ∧
    (mainServer env).IdleTimeout = 60 * time.Second := ⟨rfl, rfl, rfl⟩

/-! ## `main`: shutdown is initiated once, after a signal -/

/-- How one step changes the number of `Shutdown` calls: it grows, by one,
exactly when the main goroutine enters `server.Shutdown` from line 57. -/
theorem step_shutdownCalls (s s1 : State) (ev : Event) (h : step s ev = some s1) :
    (ev = .main ∧ s.mainPc = .callShutdown ∧ s1.mainPc = .inShutdown ∧
      s1.shutdownCalls = s.shutdownCalls + 1) ∨
    (s1.shutdownCalls = s.shutdownCalls ∧ (s1.mainPc = .inShutdown → s.mainPc = .inShutdown)) := by
  have hrun := running_of_step s s1 ev h
  unfold step at h
  simp only [hrun, ne_eq, not_true_eq_false, if_false] at h
  cases ev with
  | main =>
    unfold stepMain at h
    cases hpc : s.mainPc <;> rw [hpc] at h
    case waitQuit =>
      cases hqv : s.quit with
      | none => simp [hqv] at h
      | some sig =>
        simp only [hqv, Option.some.injEq] at h
        subst h
        simp
    case inShutdown => simp at h
    all_goals
      simp only [Option.some.injEq] at h
      subst h
      simp [hpc]
  | go =>
    unfold stepGo at h
    cases hpc : s.goPc <;> rw [hpc] at h <;> try (simp at h; done)
    all_goals
      simp only [Option.some.injEq] at h
      subst h
      simp
  | signal sig =>
    simp only [Option.some.injEq] at h
    subst h
    unfold deliver
    split
    · split <;> simp
    · simp
  | listenReturns err =>
    unfold listenReturn at h
    cases hpc : s.goPc <;> rw [hpc] at h <;> try (simp at h; done)
    rcases err with _ | e
    · simp only [Option.some.injEq] at h
      subst h
      simp
    · by_cases he : e = GoError.ErrServerClosed
      · simp only [he, ne_eq, not_true_eq_false, if_false, Option.some.injEq] at h
        subst h
        simp
      · simp only [ne_eq, he, not_false_eq_true, if_true, Option.some.injEq] at h
        subst h
        simp
  | shutdownReturns err =>
    unfold shutdownReturn at h
    cases hpc : s.mainPc <;> rw [hpc] at h <;> try (simp at h; done)
    rcases err with _ | e <;>
    · simp only [Option.some.injEq] at h
      subst h
      simp

/-- The number of `Shutdown` calls is read off the position of the main goroutine. -/
theorem shutdownCalls_of_MainInv (s : State) (h : MainInv s) :
    s.shutdownCalls ≤ 1 ∧ (s.shutdownCalls = 1 → s.received ≠ []) ∧
    (s.mainPc = .callShutdown → s.shutdownCalls = 0 ∧ s.received ≠ []) := by
  unfold MainInv at h
  cases hpc : s.mainPc <;> simp only [hpc] at h <;> simp [h]

/-- C8: in every execution of `main`, `server.Shutdown` is called at most
once, and only after the main goroutine has received `SIGINT` or `SIGTERM` from
the channel `quit`: in every reachable state the number of calls is at most one,
a call implies that exactly one such signal was received before, and a step
that enters `Shutdown` is a step of the main goroutine taken with no earlier
call and with a signal received, while every other step leaves the count as it
is and does not enter `Shutdown`. -/
theorem main_shutdown_once (env : Environ) (s : State) (h : Reachable env s) :
    s.shutdownCalls ≤ 1 ∧
    (s.shutdownCalls = 1 →
      ∃ sig, s.received = [sig] ∧ (sig = .SIGINT ∨ sig = .SIGTERM)) ∧
    (∀ (ev : Event) (s1 : State), step s ev = some s1 →
      (ev = .main ∧ s.mainPc ≠ .inShutdown ∧ s1.mainPc = .inShutdown ∧
        s.shutdownCalls = 0 ∧ s1.shutdownCalls = 1 ∧
        ∃ sig, s.received = [sig] ∧ (sig = .SIGINT ∨ sig = .SIGTERM)) ∨
      (s1.shutdownCalls = s.shutdownCalls ∧
        (s1.mainPc = .inShutdown → s.mainPc = .inShutdown))) := by
  have hinv := Inv_of_Reachable env s h
  obtain ⟨hm, -, -, ⟨-, hrc, hlen⟩, -⟩ := hinv
  obtain ⟨hle, hone, hcall⟩ := shutdownCalls_of_MainInv s hm
  have hsig : s.received ≠ [] → ∃ sig, s.received = [sig] ∧ (sig = .SIGINT ∨ sig = .SIGTERM) := by
    intro hne
    cases hr : s.received with
    | nil => exact absurd hr hne
    | cons a t =>
      rw [hr] at hlen hrc
      have ht : t = [] := by
        cases t with
        | nil => rfl
        | cons b u => simp at hlen
      subst ht
      exact ⟨a, rfl, hrc a (by simp)⟩
  refine ⟨hle, fun h1 => hsig (hone h1), ?_⟩
  intro ev s1 hst
  rcases step_shutdownCalls s s1 ev hst with ⟨h1, h2, h3, h4⟩ | h5
  · left
    obtain ⟨h0, hne⟩ := hcall h2
    refine ⟨h1, by simp [h2], h3, h0, by omega, hsig hne⟩
  · right
    exact h5

/-- The state `inShutdownState` is reached by the first nine events of
`cleanSchedule`. -/
theorem inShutdownState_reachable : Reachable [] inShutdownState :=
  ⟨cleanSchedule.take 9, rfl⟩

/-- The run of `cleanSchedule` up to the call of `Shutdown`, through
`main_shutdown_once`: one call, after `SIGTERM`. -/
theorem main_shutdown_once_witness :
    Reachable [] inShutdownState ∧ inShutdownState.shutdownCalls ≤ 1 ∧
    (inShutdownState.shutdownCalls = 1 →
      ∃ sig, inShutdownState.received = [sig] ∧ (sig = .SIGINT ∨ sig = .SIGTERM)) :=
  ⟨inShutdownState_reachable,
    (main_shutdown_once [] inShutdownState inShutdownState_reachable).1,
    (main_shutdown_once [] inShutdownState inShutdownState_reachable).2.1⟩

/-! ## `main`: the exit status -/

/-- What the position of the server goroutine is once `ListenAndServe` has
failed. -/
theorem goPc_of_listen_failed (s : State) (hg : GoInv s) (e : GoError)
    (hl : s.listenResult = some (some e)) (he : e ≠ .ErrServerClosed) :
    s.goPc = .logFailed e ∨ (s.goPc = .exit1 ∧ failedRecord e ∈ s.log) := by
  unfold GoInv at hg
  cases hpc : s.goPc <;> simp only [hpc] at hg <;> rw [hl] at hg
  case logFailed e1 =>
    left
    have : e = e1 := by simpa using hg.2.1
    rw [this]
  case exit1 =>
    right
    obtain ⟨-, e1, h1, -, h3⟩ := hg
    have : e = e1 := by simpa using h1
    exact ⟨rfl, this ▸ h3⟩
  case done =>
    rcases hg.2 with h | h
    · simp at h
    · exact absurd (by simpa using h) he
  all_goals simp at hg

/-- What the position of the main goroutine is once `Shutdown` has returned. -/
theorem mainPc_of_shutdown_returned (s : State) (hm : MainInv s) (r : Option GoError)
    (hr : s.shutdownResult = some r) :
    (∃ e, r = some e ∧ (s.mainPc = .logForced e ∨ (s.mainPc = .exit1 ∧ forcedRecord e ∈ s.log))) ∨
    (r = none ∧ (s.mainPc = .logExited ∨ (s.mainPc = .ret ∧ exitedRecord ∈ s.log))) := by
  unfold MainInv at hm
  cases hpc : s.mainPc <;> simp only [hpc] at hm <;> rw [hr] at hm
  case logForced e1 =>
    left
    exact ⟨e1, by simpa using hm.2.2, Or.inl rfl⟩
  case exit1 =>
    left
    obtain ⟨-, -, e1, h1, h2⟩ := hm
    exact ⟨e1, by simpa using h1, Or.inr ⟨rfl, h2⟩⟩
  case logExited =>
    right
    exact ⟨by simpa using hm.2.2, Or.inl rfl⟩
  case ret =>
    right
    exact ⟨by simpa using hm.2.2.1, Or.inr ⟨rfl, hm.2.2.2⟩⟩
  all_goals simp at hm

/-- What every reachable state of `main` says about the exit status. If the
process has exited, then either the status is 0, `Shutdown` returned nil and
`Server exited` was logged, or the status is 1 and either `ListenAndServe`
returned an error other than `http.ErrServerClosed`, which was logged, or
`Shutdown` returned a non-nil error, which was logged; hence an exit after a
nil result of `Shutdown` and without such an error of `ListenAndServe` has
status 0. `ListenAndServe` and `Shutdown` have each been called at most once.
While the process runs, the goroutine that saw a failure of `ListenAndServe` has
only the log record and `os.Exit(1)` left to execute, the main goroutine that
saw a failure of `Shutdown` has only the log record and `os.Exit(1)` left, and
the main goroutine that saw `Shutdown` return nil has only the record
`Server exited` and its return left. -/
theorem main_exit_status (env : Environ) (s : State) (h : Reachable env s) :
    (∀ c, s.status = .exited c →
      (c = 0 ∧ s.shutdownResult = some none ∧ exitedRecord ∈ s.log) ∨
      (c = 1 ∧
        ((∃ e, s.listenResult = some (some e) ∧ e ≠ .ErrServerClosed ∧ failedRecord e ∈ s.log) ∨
         (∃ e, s.shutdownResult = some (some e) ∧ forcedRecord e ∈ s.log)))) ∧
    (∀ c, s.status = .exited c → s.shutdownResult = some none →
      (¬ ∃ e, s.listenResult = some (some e) ∧ e ≠ .ErrServerClosed) → c = 0) ∧
    (s.listenCalls ≤ 1 ∧ s.shutdownCalls ≤ 1) ∧
    (s.status = .running →
      (∀ e, s.listenResult = some (some e) → e ≠ .ErrServerClosed →
        ∃ k ≤ 2, ∃ s1, run s (List.replicate k .go) = some s1 ∧ s1.status = .exited 1 ∧
          failedRecord e ∈ s1.log) ∧
      (∀ e, s.shutdownResult = some (some e) →
        ∃ k ≤ 2, ∃ s1, run s (List.replicate k .main) = some s1 ∧ s1.status = .exited 1 ∧
          forcedRecord e ∈ s1.log) ∧
      (s.shutdownResult = some none →
        ∃ k ≤ 2, ∃ s1, run s (List.replicate k .main) = some s1 ∧ s1.status = .exited 0 ∧
          exitedRecord ∈ s1.log)) := by
  obtain ⟨hm, hg, hst, -, -⟩ := Inv_of_Reachable env s h
  have hexit : ∀ c, s.status = .exited c →
      (c = 0 ∧ s.shutdownResult = some none ∧ exitedRecord ∈ s.log) ∨
      (c = 1 ∧
        ((∃ e, s.listenResult = some (some e) ∧ e ≠ .ErrServerClosed ∧ failedRecord e ∈ s.log) ∨
         (∃ e, s.shutdownResult = some (some e) ∧ forcedRecord e ∈ s.log))) := by
    intro c hc
    unfold StatusInv at hst
    rw [hc] at hst
    rcases hst with ⟨h0, hret⟩ | ⟨h1, hpc | hpc⟩
    · left
      have := hm
      unfold MainInv at this
      simp only [hret] at this
      exact ⟨h0, this.2.2.1, this.2.2.2⟩
    · right
      have := hm
      unfold MainInv at this
      simp only [hpc] at this
      exact ⟨h1, Or.inr this.2.2⟩
    · right
      have := hg
      unfold GoInv at this
      simp only [hpc] at this
      exact ⟨h1, Or.inl this.2⟩
  refine ⟨hexit, ?_, ⟨?_, (shutdownCalls_of_MainInv s hm).1⟩, ?_⟩
  · intro c hc hnil hno
    rcases hexit c hc with ⟨h0, -, -⟩ | ⟨-, ⟨e, h1, h2, -⟩ | ⟨e, h1, -⟩⟩
    · exact h0
    · exact absurd ⟨e, h1, h2⟩ hno
    · rw [hnil] at h1
      simp at h1
  · unfold GoInv at hg
    cases hpc : s.goPc <;> simp only [hpc] at hg <;> simp [hg.1]
  · intro hrun
    refine ⟨?_, ?_, ?_⟩
    · intro e hl he
      rcases goPc_of_listen_failed s hg e hl he with hpc | ⟨hpc, hrec⟩
      · refine ⟨2, le_refl _, ?_⟩
        simp [List.replicate, run, step, stepGo, hrun, hpc, slog.Error, failedRecord]
      · refine ⟨1, by omega, ?_⟩
        simp [List.replicate, run, step, stepGo, hrun, hpc, hrec]
    · intro e hr
      rcases mainPc_of_shutdown_returned s hm (some e) hr with ⟨e1, he1, hpc⟩ | ⟨hn, -⟩
      · have hee : e1 = e := by simpa using he1.symm
        subst hee
        rcases hpc with hpc | ⟨hpc, hrec⟩
        · refine ⟨2, le_refl _, ?_⟩
          simp [List.replicate, run, step, stepMain, hrun, hpc, slog.Error, forcedRecord]
        · refine ⟨1, by omega, ?_⟩
          simp [List.replicate, run, step, stepMain, hrun, hpc, hrec]
      · simp at hn
    · intro hr
      rcases mainPc_of_shutdown_returned s hm none hr with ⟨e1, he1, -⟩ | ⟨-, hpc⟩
      · simp at he1
      · rcases hpc with hpc | ⟨hpc, hrec⟩
        · refine ⟨2, le_refl _, ?_⟩
          simp [List.replicate, run, step, stepMain, hrun, hpc, slog.Info, exitedRecord]
        · refine ⟨1, by omega, ?_⟩
          simp [List.replicate, run, step, stepMain, hrun, hpc, hrec]

/-- The state `cleanExitState` is where `cleanSchedule` ends. -/
theorem cleanExitState_reachable : Reachable [] cleanExitState :=
  ⟨cleanSchedule, rfl⟩

/-- The run `cleanSchedule`, through `main_exit_status`: status 0, `Shutdown`
returned nil, `Server exited` logged. -/
theorem main_exit_status_clean :
    Reachable [] cleanExitState ∧ cleanExitState.status = .exited 0 ∧
    ((0 = 0 ∧ cleanExitState.shutdownResult = some none ∧ exitedRecord ∈ cleanExitState.log) ∨
      (0 = 1 ∧
        ((∃ e, cleanExitState.listenResult = some (some e) ∧ e ≠ .ErrServerClosed ∧
            failedRecord e ∈ cleanExitState.log) ∨
         (∃ e, cleanExitState.shutdownResult = some (some e) ∧
            forcedRecord e ∈ cleanExitState.log)))) :=
  ⟨cleanExitState_reachable, rfl,
    (main_exit_status [] cleanExitState cleanExitState_reachable).1 0 rfl⟩

/-- C6: the code at the schedule `raceSchedule`. `ListenAndServe` returns an
error other than `http.ErrServerClosed` and the server goroutine logs
`Server failed to start`, but before its `os.Exit(1)` of line 41 runs the main
goroutine receives `SIGTERM`, `Shutdown` returns nil, `Server exited` is logged
and `main` returns: the process exits with status 0, where the exit status
should be 1. So it does not hold of the code that, whenever the process has
exited, the status is 0 exactly if `Shutdown` returned nil and `ListenAndServe`
did not return such an error. -/
theorem main_exit_zero_after_listen_failure :
    (∃ s, main [] raceSchedule = some s ∧ s.status = .exited 0 ∧
      s.shutdownResult = some none ∧
      s.listenResult
        = some (some (.other (str "listen tcp 0.0.0.0:8080: bind: address already in use"))) ∧
      failedRecord (.other (str "listen tcp 0.0.0.0:8080: bind: address already in use"))
        ∈ s.log ∧
      exitedRecord ∈ s.log) ∧
    ¬ (∀ (env : Environ) (s : State), Reachable env s → ∀ c, s.status = .exited c →
        (c = 0 ↔ (s.shutdownResult = some none ∧
          ¬ ∃ e, s.listenResult = some (some e) ∧ e ≠ .ErrServerClosed))) := by
  have hrun : ∃ s, main [] raceSchedule = some s ∧ s.status = .exited 0 ∧
      s.shutdownResult = some none ∧
      s.listenResult
        = some (some (.other (str "listen tcp 0.0.0.0:8080: bind: address already in use"))) ∧
      failedRecord (.other (str "listen tcp 0.0.0.0:8080: bind: address already in use"))
        ∈ s.log ∧
      exitedRecord ∈ s.log := by
    refine ⟨_, rfl, rfl, rfl, rfl, ?_, ?_⟩ <;> decide
  refine ⟨hrun, ?_⟩
  intro hall
  obtain ⟨s, hs, hst, -, hl, -, -⟩ := hrun
  have := (hall [] s ⟨raceSchedule, hs⟩ 0 hst).1 rfl
  exact this.2 ⟨_, hl, by simp⟩

end Onboarding
